import Mathlib

/-!
Verification of the lead-gen front end (`frontend/js/app.js` state logic and
`frontend/js/api.js` response handling) against its natural-language
specification.

The JavaScript state is a handful of module-level variables
(`currentSearchId`, `currentBusinesses`, `currentPage`) plus the two filter
`<select>` values read from the DOM (`websiteFilter.value`,
`ratingFilter.value`).  We embed that state as an explicit structure and each
handler as a function on it.  JavaScript numbers appearing here are either
small integers (ids, counts, scores, page indices) embedded as `Nat`/`Int`,
or ratings, embedded as `ℚ`; JS truthiness of a string is "non-empty", of a
number "non-zero", of `null`/`undefined` "false", which we model on
`Option`-valued fields.
-/

/-- One business row as delivered by `POST /api/search`.  Fields the server
may omit (or deliver as `null`) are `Option`; `id` and `name` are always
present in practice but `name` is read defensively (`b.name || ''`) by the
code, so it is `Option` here as well. -/
structure Business where
  id : Nat
  name : Option String
  website : Option String
  phone : Option String
  address : Option String
  rating : Option ℚ
  review_count : Option Nat
  lead_score : Option Nat
deriving DecidableEq

/-- Successful response of `api.searchBusinesses`. -/
structure SearchResponse where
  search_id : Nat
  businesses : List Business
deriving DecidableEq

/-- The mutable front-end state: the three module-level variables of
`app.js` together with the two filter control values.
`ratingFilterValue` embeds `ratingFilter.value` after the code's own
coercion `ratingFilter.value ? parseFloat(ratingFilter.value) : null`:
`none` is the empty string, `some q` a non-empty option string parsing to
the number `q`. -/
structure AppState where
  currentSearchId : Option Nat
  currentBusinesses : List Business
  currentPage : Nat
  websiteFilterValue : String
  ratingFilterValue : Option ℚ
deriving DecidableEq

/-- JS truthiness of an optional string (`null` and `''` are falsy). -/
def truthyStr : Option String → Bool
  | none => false
  | some s => s ≠ ""

/-- `b.rating && b.rating >= minRating` from `getFilteredBusinesses`
(app.js line 120): truthy iff the rating is present, non-zero and at least
the threshold. -/
def ratingPasses (minRating : ℚ) (b : Business) : Bool :=
  match b.rating with
  | none => false
  | some r => r ≠ 0 && minRating ≤ r

/-- `getFilteredBusinesses` (app.js lines 107-124): website predicate first
(`'true'` keeps truthy websites, `'false'` keeps falsy ones, anything else
keeps all), then, only when `minRating` is truthy (non-null and non-zero),
the rating predicate. -/
def getFilteredBusinesses (s : AppState) : List Business :=
  let afterWebsite :=
    if s.websiteFilterValue = "true" then
      s.currentBusinesses.filter (fun b => truthyStr b.website)
    else if s.websiteFilterValue = "false" then
      s.currentBusinesses.filter (fun b => ! truthyStr b.website)
    else
      s.currentBusinesses
  match s.ratingFilterValue with
  | none => afterWebsite
  | some m => if m ≠ 0 then afterWebsite.filter (ratingPasses m) else afterWebsite

/-- A business with no rating, used as the C1 counterexample row. -/
def bNoRating : Business :=
  { id := 1, name := some "No Rating Cafe", website := some "http://nr.example",
    phone := none, address := none, rating := none, review_count := none,
    lead_score := some 10 }

/-- State in which the user has set the minimum-rating select to "0"
(a non-empty string parsing to the number 0). -/
def s1cx : AppState :=
  { currentSearchId := some 1, currentBusinesses := [bNoRating],
    currentPage := 0, websiteFilterValue := "", ratingFilterValue := some 0 }

/-- C1 counterexample: with the minimum-rating threshold set to "0",
`parseFloat` yields the falsy number 0, so `getFilteredBusinesses` skips the
rating predicate entirely and a business whose rating is absent is NOT
excluded from the filtered view — refuting the claim for the threshold
value "0". -/
theorem c1_counterexample :
    s1cx.ratingFilterValue = some 0 ∧ bNoRating.rating = none ∧
      getFilteredBusinesses s1cx = [bNoRating] :=
  ⟨rfl, rfl, rfl⟩

/-- C1 (amended): for every minimum-rating threshold the user has set that
parses to a non-zero number, every business whose rating is absent is
excluded from the filtered view; a threshold of "0" leaves the rating filter
inactive. -/
theorem c1_amended (s : AppState) (m : ℚ) (hm : s.ratingFilterValue = some m)
    (hm0 : m ≠ 0) (b : Business) (hb : b.rating = none) :
    b ∉ getFilteredBusinesses s := by
  intro hmem
  unfold getFilteredBusinesses at hmem
  rw [hm] at hmem
  simp only [if_pos hm0] at hmem
  have hpass := (List.mem_filter.mp hmem).2
  rw [ratingPasses, hb] at hpass
  exact Bool.false_ne_true hpass

/-- A state whose rating threshold is 4 and whose only business has no
rating, exercising `c1_amended` at a concrete input. -/
def s1w : AppState :=
  { currentSearchId := some 1, currentBusinesses := [bNoRating],
    currentPage := 0, websiteFilterValue := "", ratingFilterValue := some 4 }

theorem c1_amended_witness : bNoRating ∉ getFilteredBusinesses s1w :=
  c1_amended s1w 4 rfl (by norm_num) bNoRating rfl

/-- A business whose rating is exactly 0, used for C9. -/
def bZeroRating : Business :=
  { id := 2, name := some "Zero Star Diner", website := none,
    phone := none, address := none, rating := some 0, review_count := some 3,
    lead_score := none }

/-- C9: under any active positive minimum-rating threshold, a business whose
rating is exactly 0 is excluded from the filtered view (the truthiness test
`b.rating &&` rejects the rating 0 before the comparison is consulted),
even though 0 lies in the declared valid range 0.0-5.0. -/
theorem c9_zero_rating_excluded (s : AppState) (m : ℚ)
    (hm : s.ratingFilterValue = some m) (hmpos : 0 < m)
    (b : Business) (hb : b.rating = some 0) :
    b ∉ getFilteredBusinesses s := by
  intro hmem
  unfold getFilteredBusinesses at hmem
  rw [hm] at hmem
  simp only [if_pos (ne_of_gt hmpos)] at hmem
  have hpass := (List.mem_filter.mp hmem).2
  rw [ratingPasses, hb] at hpass
  simp at hpass

/-- State with threshold 3 over the zero-rated business, exercising
`c9_zero_rating_excluded` at a concrete input. -/
def s9w : AppState :=
  { currentSearchId := some 2, currentBusinesses := [bZeroRating],
    currentPage := 0, websiteFilterValue := "", ratingFilterValue := some 3 }

theorem c9_witness : bZeroRating ∉ getFilteredBusinesses s9w :=
  c9_zero_rating_excluded s9w 3 rfl (by norm_num) bZeroRating rfl

/-- `const PAGE_SIZE = 10` (app.js line 9). -/
def PAGE_SIZE : Nat := 10

/-- `Math.ceil(businesses.length / PAGE_SIZE)` (app.js line 168), as the
usual natural-number ceiling division. -/
def totalPages (n : Nat) : Nat := (n + PAGE_SIZE - 1) / PAGE_SIZE

/-- `businesses.slice(start, start + PAGE_SIZE)` with
`start = currentPage * PAGE_SIZE` (app.js lines 169-170). -/
def getPageItems (page : Nat) (l : List Business) : List Business :=
  (l.drop (page * PAGE_SIZE)).take PAGE_SIZE

/-- `renderPage` applied to the current filtered view (as `applyFilters`
does, app.js lines 137-140): the page slice together with the page count. -/
def renderPage (s : AppState) : List Business × Nat :=
  (getPageItems s.currentPage (getFilteredBusinesses s),
   totalPages (getFilteredBusinesses s).length)

/-- The `nextBtn` click handler (app.js lines 215-220): increment the page
only while strictly below `totalPages - 1`, where `totalPages` comes from
the current filtered view; JS subtraction may go to -1, so the comparison is
taken in `ℤ`. -/
def nextPage (s : AppState) : AppState :=
  if (s.currentPage : ℤ) < (totalPages (getFilteredBusinesses s).length : ℤ) - 1 then
    { s with currentPage := s.currentPage + 1 }
  else s

/-- The `prevBtn` click handler (app.js lines 208-213): decrement the page
only while strictly above 0. -/
def prevPage (s : AppState) : AppState :=
  if 0 < s.currentPage then { s with currentPage := s.currentPage - 1 } else s

theorem totalPages_eq_ceil (n : Nat) :
    (totalPages n : ℤ) = ⌈(n : ℚ) / (PAGE_SIZE : ℚ)⌉ := by
  have h1 : 10 * totalPages n ≤ n + 9 := by simp only [totalPages, PAGE_SIZE]; omega
  have h2 : n ≤ 10 * totalPages n := by simp only [totalPages, PAGE_SIZE]; omega
  have h1q : (10 : ℚ) * (totalPages n : ℚ) ≤ (n : ℚ) + 9 := by exact_mod_cast h1
  have h2q : (n : ℚ) ≤ 10 * (totalPages n : ℚ) := by exact_mod_cast h2
  have hps : (PAGE_SIZE : ℚ) = 10 := by norm_num [PAGE_SIZE]
  rw [eq_comm, Int.ceil_eq_iff, hps]
  constructor
  · rw [lt_div_iff₀ (by norm_num : (0:ℚ) < 10)]
    push_cast
    linarith
  · rw [div_le_iff₀ (by norm_num : (0:ℚ) < 10)]
    push_cast
    linarith

theorem flatten_pages_aux :
    ∀ (fuel : Nat) (l : List Business), l.length ≤ fuel →
      ((List.range (totalPages l.length)).map (fun i => getPageItems i l)).flatten = l := by
  intro fuel
  induction fuel with
  | zero =>
      intro l h
      have hl : l = [] := List.eq_nil_of_length_eq_zero (Nat.le_zero.mp h)
      subst hl
      rfl
  | succ n ih =>
      intro l h
      rcases eq_or_ne l [] with hl | hl
      · subst hl; rfl
      · have hpos : 0 < l.length := List.length_pos.mpr hl
        have htp : totalPages l.length = totalPages (l.drop PAGE_SIZE).length + 1 := by
          simp only [totalPages, PAGE_SIZE, List.length_drop]
          omega
        rw [htp, List.range_succ_eq_map, List.map_cons, List.flatten_cons, List.map_map]
        have hmap : List.map ((fun i => getPageItems i l) ∘ Nat.succ)
              (List.range (totalPages (l.drop PAGE_SIZE).length))
            = List.map (fun i => getPageItems i (l.drop PAGE_SIZE))
              (List.range (totalPages (l.drop PAGE_SIZE).length)) := by
          apply List.map_congr_left
          intro i _
          show (l.drop (Nat.succ i * PAGE_SIZE)).take PAGE_SIZE
              = ((l.drop PAGE_SIZE).drop (i * PAGE_SIZE)).take PAGE_SIZE
          rw [List.drop_drop, Nat.succ_mul, Nat.add_comm]
        have hlen : (l.drop PAGE_SIZE).length ≤ n := by
          simp only [List.length_drop, PAGE_SIZE]
          omega
        rw [hmap, ih (l.drop PAGE_SIZE) hlen]
        show l.take PAGE_SIZE ++ l.drop PAGE_SIZE = l
        exact List.take_append_drop PAGE_SIZE l

/-- C2: `renderPage` over the filtered view computes
`totalPages = ceil(N / 10)` (0 when N = 0), shows the slice
`[page*10, page*10+10)` of the filtered sequence (empty once
`page*10 ≥ N`), and the pages `0 .. totalPages-1` concatenate, in order,
exactly to the filtered sequence. -/
theorem c2_pagination (s : AppState) :
    ((renderPage s).2 : ℤ)
        = ⌈((getFilteredBusinesses s).length : ℚ) / (PAGE_SIZE : ℚ)⌉ ∧
    ((getFilteredBusinesses s).length = 0 → (renderPage s).2 = 0) ∧
    (renderPage s).1
        = ((getFilteredBusinesses s).drop (s.currentPage * PAGE_SIZE)).take PAGE_SIZE ∧
    ((getFilteredBusinesses s).length ≤ s.currentPage * PAGE_SIZE →
        (renderPage s).1 = []) ∧
    ((List.range (renderPage s).2).map
        (fun i => getPageItems i (getFilteredBusinesses s))).flatten
      = getFilteredBusinesses s := by
  refine ⟨totalPages_eq_ceil _, ?_, rfl, ?_, ?_⟩
  · intro h
    simp only [renderPage, h, totalPages, PAGE_SIZE]
  · intro h
    have hdrop : (getFilteredBusinesses s).drop (s.currentPage * PAGE_SIZE) = [] :=
      List.drop_eq_nil_of_le h
    simp only [renderPage, getPageItems, hdrop, List.take_nil]
  · exact flatten_pages_aux (getFilteredBusinesses s).length _ le_rfl

/-- Eleven businesses: two pages under PAGE_SIZE = 10. -/
def bs2 : List Business := List.replicate 11 bNoRating

/-- State on page 2 (out of range) over eleven unfiltered businesses. -/
def s2w : AppState :=
  { currentSearchId := some 3, currentBusinesses := bs2, currentPage := 2,
    websiteFilterValue := "", ratingFilterValue := none }

theorem c2_witness :
    (renderPage s2w).1 = [] ∧
    ((List.range (renderPage s2w).2).map
        (fun i => getPageItems i (getFilteredBusinesses s2w))).flatten
      = getFilteredBusinesses s2w :=
  ⟨(c2_pagination s2w).2.2.2.1 (by decide), (c2_pagination s2w).2.2.2.2⟩

/-- C6: `nextPage` increments the page index by 1 when it is strictly below
`totalPages - 1` (computed from the current filtered view) and leaves the
state unchanged otherwise; `prevPage` decrements when the index is positive
and leaves the state unchanged at 0; neither boundary case is an error. -/
theorem c6_paging (s : AppState) :
    (((s.currentPage : ℤ) < (totalPages (getFilteredBusinesses s).length : ℤ) - 1 →
        nextPage s = { s with currentPage := s.currentPage + 1 }) ∧
     ((totalPages (getFilteredBusinesses s).length : ℤ) - 1 ≤ (s.currentPage : ℤ) →
        nextPage s = s)) ∧
    ((0 < s.currentPage → prevPage s = { s with currentPage := s.currentPage - 1 }) ∧
     (s.currentPage = 0 → prevPage s = s)) := by
  refine ⟨⟨?_, ?_⟩, ?_, ?_⟩
  · intro h
    rw [nextPage, if_pos h]
  · intro h
    rw [nextPage, if_neg (not_lt.mpr h)]
  · intro h
    rw [prevPage, if_pos h]
  · intro h
    rw [prevPage, if_neg (by omega)]

/-- Eleven businesses at page 0: the next button advances, the previous
button is a no-op. -/
def s6w : AppState :=
  { currentSearchId := some 3, currentBusinesses := bs2, currentPage := 0,
    websiteFilterValue := "", ratingFilterValue := none }

theorem c6_witness :
    nextPage s6w = { s6w with currentPage := s6w.currentPage + 1 } ∧
    prevPage s6w = s6w :=
  ⟨(c6_paging s6w).1.1 (by decide), (c6_paging s6w).2.2 rfl⟩

/-- The success branch of `handleSearch` (app.js lines 87-89): store the new
search id and business list and reset the page index to 0.  No statement in
`handleSearch` writes `websiteFilter.value` or `ratingFilter.value`, so the
filter selection carries over unchanged. -/
def handleSearchSuccess (s : AppState) (result : SearchResponse) : AppState :=
  { s with currentSearchId := some result.search_id,
           currentBusinesses := result.businesses,
           currentPage := 0 }

/-- Prior state with both filters active, for the C4 counterexample. -/
def s4cx : AppState :=
  { currentSearchId := some 7, currentBusinesses := [bZeroRating],
    currentPage := 2, websiteFilterValue := "true", ratingFilterValue := some 4 }

/-- A fresh successful search result, for the C4 counterexample. -/
def res4 : SearchResponse := { search_id := 8, businesses := [bNoRating] }

/-- C4 counterexample: a successful search does NOT reset the filter
selection to "no filter" (website tri-state `""` = any, no rating
threshold): starting from a state with the website filter on `"true"` and a
rating threshold of 4, both survive `handleSearchSuccess` unchanged. -/
theorem c4_counterexample :
    (handleSearchSuccess s4cx res4).websiteFilterValue = "true" ∧
    (handleSearchSuccess s4cx res4).ratingFilterValue = some 4 ∧
    ¬ ((handleSearchSuccess s4cx res4).websiteFilterValue = "" ∧
       (handleSearchSuccess s4cx res4).ratingFilterValue = none) := by
  refine ⟨rfl, rfl, ?_⟩
  intro h
  cases h.2

/-- C4 (amended): for every prior state and every successful search result,
`handleSearchSuccess` replaces the stored search result (id and business
list) with the new one and resets the page index to 0, while the filter
selection is left exactly as it was (it is NOT reset to "no filter"). -/
theorem c4_amended (s : AppState) (result : SearchResponse) :
    (handleSearchSuccess s result).currentSearchId = some result.search_id ∧
    (handleSearchSuccess s result).currentBusinesses = result.businesses ∧
    (handleSearchSuccess s result).currentPage = 0 ∧
    (handleSearchSuccess s result).websiteFilterValue = s.websiteFilterValue ∧
    (handleSearchSuccess s result).ratingFilterValue = s.ratingFilterValue :=
  ⟨rfl, rfl, rfl, rfl, rfl⟩

/-- `updateStats` (app.js lines 287-295), applied by `handleSearch` to the
full unfiltered `result.businesses` (app.js line 93): total count, count
with a truthy website, and their difference. -/
def updateStats (businesses : List Business) : Nat × Nat × Nat :=
  (businesses.length,
   (businesses.filter (fun b => truthyStr b.website)).length,
   businesses.length - (businesses.filter (fun b => truthyStr b.website)).length)

/-- The stats shown for a state: `updateStats` over the full unfiltered
current business list — the filter controls are never consulted. -/
def computeStats (s : AppState) : Nat × Nat × Nat :=
  updateStats s.currentBusinesses

/-- C5: `computeStats` is a function of the unfiltered current search result
alone — two states with the same business list but any two filter
selections (and any pages) yield the same triple — and the triple is
(total, businesses with website, total - businesses with website). -/
theorem c5_stats_ignore_filters (s1 s2 : AppState)
    (h : s1.currentBusinesses = s2.currentBusinesses) :
    computeStats s1 = computeStats s2 ∧
    (computeStats s1).1 = s1.currentBusinesses.length ∧
    (computeStats s1).2.1
        = (s1.currentBusinesses.filter (fun b => truthyStr b.website)).length ∧
    (computeStats s1).2.2 = (computeStats s1).1 - (computeStats s1).2.1 :=
  ⟨by rw [computeStats, computeStats, h], rfl, rfl, rfl⟩

/-- A business with a website, for the C5 witness. -/
def bWeb : Business :=
  { id := 3, name := some "Web Co", website := some "http://w.example",
    phone := none, address := none, rating := some 4, review_count := some 12,
    lead_score := some 70 }

/-- Five businesses, three with a website (the spec's worked example). -/
def bs5 : List Business := [bWeb, bNoRating, bZeroRating, bWeb, bZeroRating]

/-- The five businesses under no filter. -/
def s5a : AppState :=
  { currentSearchId := some 9, currentBusinesses := bs5, currentPage := 0,
    websiteFilterValue := "", ratingFilterValue := none }

/-- The same five businesses under a website-must-be-present filter and a
rating threshold, on another page. -/
def s5b : AppState :=
  { currentSearchId := some 9, currentBusinesses := bs5, currentPage := 1,
    websiteFilterValue := "true", ratingFilterValue := some 4 }

theorem c5_witness :
    computeStats s5a = computeStats s5b ∧ computeStats s5a = (5, 3, 2) :=
  ⟨(c5_stats_ignore_filters s5a s5b rfl).1, by decide⟩

/-- `handleFilterChange` (app.js lines 129-132) observed after the user set
the two filter controls to `wf` and `rf`: it resets the page index to 0 and
re-renders; it writes neither `currentBusinesses` nor `currentSearchId`. -/
def handleFilterChange (s : AppState) (wf : String) (rf : Option ℚ) : AppState :=
  { s with websiteFilterValue := wf, ratingFilterValue := rf, currentPage := 0 }

/-- C7: changing the filter selection resets the page index to 0 and leaves
the stored search result — business list and search id — unchanged. -/
theorem c7_filter_resets_page (s : AppState) (wf : String) (rf : Option ℚ) :
    (handleFilterChange s wf rf).currentPage = 0 ∧
    (handleFilterChange s wf rf).currentBusinesses = s.currentBusinesses ∧
    (handleFilterChange s wf rf).currentSearchId = s.currentSearchId :=
  ⟨rfl, rfl, rfl⟩

/-- `.replace(/"/g, '""')` (app.js lines 309, 313-315): every double-quote
character is doubled, character by character. -/
def escQuotes (s : String) : String :=
  String.mk (s.data.foldr (fun c acc => if c = '"' then '"' :: '"' :: acc else c :: acc) [])

/-- The template `` `"${...}"` `` around an escaped field: wrap in double
quotes. -/
def csvQuote (s : String) : String := "\"" ++ escQuotes s ++ "\""

/-- JS `x || ''` on an optional string field (an absent or empty string
both yield the empty string). -/
def orEmpty : Option String → String
  | none => ""
  | some s => s

/-- Least `k ≤ 19` with `den ∣ 10^k`, i.e. the number of decimal digits a
terminating decimal with this (reduced) denominator needs. -/
def pow10Exp (den : Nat) : Option Nat :=
  (List.range 20).find? (fun k => 10 ^ k % den = 0)

/-- `Array.prototype.join`'s number-to-string conversion for the numeric
CSV cells, on rationals with a terminating decimal expansion (every rating
the server delivers): integers print without a point, other terminating
decimals with their shortest fractional part.  (Rationals outside that
range cannot arise from a JS float's shortest decimal form; they fall back
to a fraction rendering.) -/
def ratToDecimalString (q : ℚ) : String :=
  match pow10Exp q.den with
  | some 0 => toString q.num
  | some (k+1) =>
      let digits := (toString (q.num.natAbs * 10 ^ (k+1) / q.den)).data
      let padded :=
        if digits.length ≤ k+1 then
          List.replicate (k + 2 - digits.length) '0' ++ digits
        else digits
      (if q.num < 0 then "-" else "")
        ++ String.mk (padded.take (padded.length - (k+1)))
        ++ "." ++ String.mk (padded.drop (padded.length - (k+1)))
  | none => toString q.num ++ "/" ++ toString q.den

/-- One data row of `exportCSV` (app.js lines 308-316): Name, Website,
Phone and Address are quoted with `"` → `""` escaping; Lead Score, Rating
and Reviews are unquoted numeric cells with the JS `||` defaults — `0` for
a falsy lead score, the empty string for a falsy rating or review count. -/
def csvRow (b : Business) : List String :=
  [ csvQuote (orEmpty b.name),
    toString (match b.lead_score with | none => 0 | some n => n),
    (match b.rating with
     | none => ""
     | some r => if r ≠ 0 then ratToDecimalString r else ""),
    (match b.review_count with
     | none => ""
     | some n => if n ≠ 0 then toString n else ""),
    csvQuote (orEmpty b.website),
    csvQuote (orEmpty b.phone),
    csvQuote (orEmpty b.address) ]

/-- `headers.join(',')` for the fixed header array (app.js line 307). -/
def csvHeader : String := "Name,Lead Score,Rating,Reviews,Website,Phone,Address"

/-- `exportCSV` (app.js lines 300-328): `none` when the guard
`currentBusinesses.length === 0` suppresses the download, otherwise the
downloaded text — header and the rows of the *filtered* view joined by
newlines. -/
def exportCSV (s : AppState) : Option String :=
  if s.currentBusinesses.length = 0 then none
  else
    some (String.intercalate "\n"
      (csvHeader :: (getFilteredBusinesses s).map
        (fun b => String.intercalate "," (csvRow b))))

/-- A business with only a name, for the C3 counterexample. -/
def bAcme : Business :=
  { id := 4, name := some "Acme", website := none, phone := none,
    address := none, rating := none, review_count := none, lead_score := none }

/-- Unfiltered state over the single business `bAcme`. -/
def s3cx : AppState :=
  { currentSearchId := some 4, currentBusinesses := [bAcme], currentPage := 0,
    websiteFilterValue := "", ratingFilterValue := none }

/-- C3 counterexample: the Lead Score cell of an exported row is `0`, a
field that is not wrapped in double quotes (no string of the form
`"` ++ t ++ `"` equals it) — refuting "every field of every row is
individually wrapped in double quotes". -/
theorem c3_counterexample :
    exportCSV s3cx
      = some "Name,Lead Score,Rating,Reviews,Website,Phone,Address\n\"Acme\",0,,,\"\",\"\",\"\"" ∧
    (csvRow bAcme).get? 1 = some "0" ∧
    ∀ t : String, "0" ≠ "\"" ++ t ++ "\"" := by
  refine ⟨rfl, rfl, ?_⟩
  intro t h
  have h2 := congrArg String.length h
  rw [String.length_append, String.length_append] at h2
  have hq : "\"".length = 1 := rfl
  have h0 : "0".length = 1 := rfl
  omega

/-- C3 (amended): for every state with a non-empty stored business list,
`exportCSV` downloads a CSV whose first line is the header
`Name,Lead Score,Rating,Reviews,Website,Phone,Address` followed, in order,
by one comma-joined row per business of the filtered view; in each row the
Name, Website, Phone and Address fields are individually wrapped in double
quotes with embedded double quotes escaped as `""` (an absent one as the
quoted empty field), while the Lead Score, Rating and Reviews fields are
unquoted — a missing rating or review count rendering as the empty string
and a missing lead score as `0`. -/
theorem c3_amended (s : AppState) (h : s.currentBusinesses ≠ []) :
    exportCSV s = some (String.intercalate "\n"
      (csvHeader :: (getFilteredBusinesses s).map
        (fun b => String.intercalate "," (csvRow b)))) ∧
    ∀ b : Business,
      (csvRow b).get? 0 = some (csvQuote (orEmpty b.name)) ∧
      (csvRow b).get? 4 = some (csvQuote (orEmpty b.website)) ∧
      (csvRow b).get? 5 = some (csvQuote (orEmpty b.phone)) ∧
      (csvRow b).get? 6 = some (csvQuote (orEmpty b.address)) ∧
      (b.website = none → (csvRow b).get? 4 = some "\"\"") ∧
      (b.rating = none → (csvRow b).get? 2 = some "") ∧
      (b.review_count = none → (csvRow b).get? 3 = some "") ∧
      (b.lead_score = none → (csvRow b).get? 1 = some "0") := by
  constructor
  · rw [exportCSV, if_neg (by simpa using h)]
  · intro b
    refine ⟨rfl, rfl, rfl, rfl, ?_, ?_, ?_, ?_⟩ <;>
      (intro hb; simp only [csvRow, hb, orEmpty, csvQuote, escQuotes]; rfl)

theorem c3_witness :
    exportCSV s5a = some (String.intercalate "\n"
      (csvHeader :: (getFilteredBusinesses s5a).map
        (fun b => String.intercalate "," (csvRow b)))) ∧
    (csvRow bWeb).get? 0 = some (csvQuote (orEmpty bWeb.name)) :=
  ⟨(c3_amended s5a (by decide)).1, ((c3_amended s5a (by decide)).2 bWeb).1⟩

/-- C10: when the stored search result is non-empty but the current filter
selection removes every business, `exportCSV` still produces a download —
the no-download guard looks only at the unfiltered list — and the CSV is
exactly the header line with no data rows. -/
theorem c10_export_all_filtered_out (s : AppState)
    (h1 : s.currentBusinesses ≠ []) (h2 : getFilteredBusinesses s = []) :
    exportCSV s = some csvHeader ∧
    ∀ s' : AppState, exportCSV s' = none ↔ s'.currentBusinesses = [] := by
  constructor
  · rw [exportCSV, if_neg (by simpa using h1), h2]
    rfl
  · intro s'
    constructor
    · intro h
      by_contra hne
      rw [exportCSV, if_neg (by simpa using hne)] at h
      cases h
    · intro h
      rw [exportCSV, if_pos (by simp [h])]

/-- Non-empty search result whose single business is removed by the
website-must-be-present filter. -/
def s10w : AppState :=
  { currentSearchId := some 2, currentBusinesses := [bZeroRating],
    currentPage := 0, websiteFilterValue := "true", ratingFilterValue := none }

theorem c10_witness : exportCSV s10w = some csvHeader :=
  (c10_export_all_filtered_out s10w (by decide) (by decide)).1

/-- A `fetch` response as the client code observes it: the HTTP status and
the value `response.json()` would parse from the body. -/
structure HttpResponse (α : Type) where
  status : Nat
  body : α

/-- `Response.ok`: status in the 2xx range (200-299). -/
def responseOk (status : Nat) : Bool := 200 ≤ status && status < 300

/-- `api.getCompanyResearch` (api.js lines 103-110): on a non-ok response,
404 yields `null` and anything else throws; an ok response yields the
parsed body. -/
def getCompanyResearch {α : Type} (r : HttpResponse α) : Except String (Option α) :=
  if ! responseOk r.status then
    if r.status = 404 then Except.ok none
    else Except.error "Failed to get research"
  else Except.ok (some r.body)

/-- `api.getSeoAnalysis` (api.js lines 142-149): same shape with its own
error message. -/
def getSeoAnalysis {α : Type} (r : HttpResponse α) : Except String (Option α) :=
  if ! responseOk r.status then
    if r.status = 404 then Except.ok none
    else Except.error "Failed to get SEO analysis"
  else Except.ok (some r.body)

/-- `api.getSeoIssues` (api.js lines 154-161): same shape with its own
error message. -/
def getSeoIssues {α : Type} (r : HttpResponse α) : Except String (Option α) :=
  if ! responseOk r.status then
    if r.status = 404 then Except.ok none
    else Except.error "Failed to get SEO issues"
  else Except.ok (some r.body)

/-- C8: each of the three get-by-id lookups maps a 404 response to the
"not found" sentinel `null` (absence, not an error), returns the parsed
body on any 2xx response, and throws on every other status. -/
theorem c8_lookup_status_mapping {α : Type} (r : HttpResponse α) :
    (r.status = 404 →
        getCompanyResearch r = Except.ok none ∧
        getSeoAnalysis r = Except.ok none ∧
        getSeoIssues r = Except.ok none) ∧
    (200 ≤ r.status → r.status < 300 →
        getCompanyResearch r = Except.ok (some r.body) ∧
        getSeoAnalysis r = Except.ok (some r.body) ∧
        getSeoIssues r = Except.ok (some r.body)) ∧
    (¬ (200 ≤ r.status ∧ r.status < 300) → r.status ≠ 404 →
        getCompanyResearch r = Except.error "Failed to get research" ∧
        getSeoAnalysis r = Except.error "Failed to get SEO analysis" ∧
        getSeoIssues r = Except.error "Failed to get SEO issues") := by
  refine ⟨?_, ?_, ?_⟩
  · intro h404
    have hok : responseOk r.status = false := by
      rw [responseOk, h404]
      rfl
    simp [getCompanyResearch, getSeoAnalysis, getSeoIssues, hok, h404,
      show responseOk 404 = false from rfl]
  · intro h200 h300
    have hok : responseOk r.status = true := by
      rw [responseOk]
      simp [h200, h300]
    simp [getCompanyResearch, getSeoAnalysis, getSeoIssues, hok]
  · intro hnok h404
    have hok : responseOk r.status = false := by
      rw [responseOk]
      rcases Nat.lt_or_ge r.status 200 with hlo | hhi
      · simp [Nat.not_le.mpr hlo]
      · have hge : ¬ r.status < 300 := fun hc => hnok ⟨hhi, hc⟩
        simp [hge]
    simp [getCompanyResearch, getSeoAnalysis, getSeoIssues, hok, h404]

theorem c8_witness :
    getCompanyResearch ({ status := 404, body := "r" } : HttpResponse String)
        = Except.ok none ∧
    getSeoAnalysis ({ status := 200, body := "a" } : HttpResponse String)
        = Except.ok (some "a") ∧
    getSeoIssues ({ status := 500, body := "i" } : HttpResponse String)
        = Except.error "Failed to get SEO issues" :=
  ⟨(c8_lookup_status_mapping ({ status := 404, body := "r" } : HttpResponse String)).1
      rfl |>.1,
   ((c8_lookup_status_mapping ({ status := 200, body := "a" } : HttpResponse String)).2.1
      (by decide) (by decide)).2.1,
   ((c8_lookup_status_mapping ({ status := 500, body := "i" } : HttpResponse String)).2.2
      (by decide) (by decide)).2.2⟩
